import Mathlib

/-!
# Verification of the chat streaming pipeline (YDRP_UI)

Shallow embedding of the chat page's stream-chunk handling, message sending
and session renaming logic, together with proofs of the specified properties.

The embedded functions mirror the React component:
* `handleStreamChunk` folds one decoded `StreamChunk` into the conversation
  state.  The React callback closes over `activeSessionId` at stream-start
  time, while the `setX(prev => ...)` updaters see the current state; the
  embedding therefore takes the closure-captured id (`captured`) and the
  current state separately.  Non-deterministic time (`Date.now()` /
  `new Date()`) is threaded as an explicit `now : Nat` parameter.
* `handleSendMessage` is the inbound send operation.
* `handleRenameChat` is the optimistic rename with rollback; the external
  rename call's outcome is passed as the boolean `renameSucceeds`.
-/

/-- Role of a chat message, the `role` field of the `Message` TS interface. -/
inductive Role where
  | user
  | assistant
deriving DecidableEq, Repr

/-- The `Message` interface: `{ id, content, role, timestamp }`.
Timestamps are modelled as natural numbers. -/
structure Message where
  id : String
  content : String
  role : Role
  timestamp : Nat
deriving DecidableEq, Repr

/-- The `ChatSession` interface:
`{ id, title, createdAt, lastMessageTime?, messageCount?, isArchived? }`. -/
structure ChatSession where
  id : String
  title : String
  createdAt : Nat
  lastMessageTime : Option Nat
  messageCount : Option Nat
  isArchived : Option Bool
deriving DecidableEq, Repr

/-- The `StreamChunk` tagged union.  `chat_id` fields are numbers in the
transport and converted with `String(...)` by the handler; the `other`
constructor stands for any chunk whose `type` discriminant is none of
`chat_info`, `text_delta`, `status`, `error` (e.g. `tool_call`,
`tool_output`), which the handler's if/else-if chain falls through. -/
inductive StreamChunk where
  | chatInfo (chat_id : Nat) (title : Option String)
  | textDelta (delta : String)
  | status (st : String) (chat_id : Nat)
  | error (message : String)
  | other (tag : String)
deriving DecidableEq, Repr

/-- The conversation state held by the component: the `messages`,
`chatSessions`, `activeSessionId` and `isTyping` React state variables. -/
structure ChatState where
  messages : List Message
  chatSessions : List ChatSession
  activeSessionId : Option String
  isTyping : Bool
deriving DecidableEq, Repr

/-- The request object built by `handleSendMessage`:
`{ message: content, chat_id: activeSessionId ? Number(activeSessionId) : undefined }`.
The id is kept as its string form (ids are decimal number strings, so
`Number` is injective on them). -/
structure ChatMessageRequest where
  message : String
  chat_id : Option String
deriving DecidableEq, Repr

/-- Embeds `infoChunk.data.title || "New Chat"`: JavaScript `||` falls back both
when `title` is absent (`undefined`) and when it is the empty string
(falsy). -/
def titleOrDefault (title : Option String) : String :=
  match title with
  | some t => if t = "" then "New Chat" else t
  | none => "New Chat"

/-- The fresh assistant message created by the `text_delta` branch:
`{ id: assistant-Date.now(), content: delta, role: assistant, timestamp: new Date() }`. -/
def newAssistantMessage (now : Nat) (delta : String) : Message :=
  { id := "assistant-" ++ toString now
    content := delta
    role := Role.assistant
    timestamp := now }

/-- The updater passed to `setMessages` by the `text_delta` branch: if the
last message exists and has role assistant, replace it with a copy whose
content has the delta appended; otherwise append a fresh assistant
message. -/
def applyDelta (now : Nat) (delta : String) (ms : List Message) : List Message :=
  match ms.getLast? with
  | some lastMessage =>
      if lastMessage.role = Role.assistant then
        ms.dropLast ++ [{ lastMessage with content := lastMessage.content ++ delta }]
      else
        ms ++ [newAssistantMessage now delta]
  | none => ms ++ [newAssistantMessage now delta]

/-- The session record synthesized by the `chat_info` branch for a new
chat: `messageCount: 1` ("Initial user message counts as 1"). -/
def newSessionOfChunk (now : Nat) (chat_id : Nat) (title : Option String) : ChatSession :=
  { id := toString chat_id
    title := titleOrDefault title
    createdAt := now
    lastMessageTime := some now
    messageCount := some 1
    isArchived := none }

/-- The `setChatSessions` updater of the `status: complete` branch: refresh
`lastMessageTime` on every session whose id equals `String(chunk.data.chat_id)`. -/
def touchSessions (now : Nat) (chatIdStr : String) (sessions : List ChatSession) : List ChatSession :=
  sessions.map fun session =>
    if session.id = chatIdStr then { session with lastMessageTime := some now } else session

/-- Embedding of `handleStreamChunk`: one application of the chunk callback.  `captured`
is the `activeSessionId` the callback closed over when the stream was
started; the `setX(prev => ...)` updaters act on the current state `s`.
Returns the next state together with the message surfaced to the failure
channel (`toast.error`), if any. -/
def handleStreamChunk (now : Nat) (captured : Option String) (chunk : StreamChunk)
    (s : ChatState) : ChatState × Option String :=
  match chunk with
  | StreamChunk.chatInfo chat_id title =>
      if captured.isNone then
        ({ s with
            activeSessionId := some (toString chat_id)
            chatSessions := newSessionOfChunk now chat_id title :: s.chatSessions }, none)
      else
        (s, none)
  | StreamChunk.textDelta delta =>
      ({ s with isTyping := true, messages := applyDelta now delta s.messages }, none)
  | StreamChunk.status st chat_id =>
      if st = "complete" then
        if captured.isSome then
          ({ s with
              isTyping := false
              chatSessions := touchSessions now (toString chat_id) s.chatSessions }, none)
        else
          ({ s with isTyping := false }, none)
      else
        (s, none)
  | StreamChunk.error message =>
      ({ s with isTyping := false }, some message)
  | StreamChunk.other _ =>
      (s, none)

/-- Embeds `content.trim()`: drop leading and trailing whitespace characters.
Defined over the character list so that it is kernel-computable. -/
def jsTrim (content : String) : String :=
  String.mk
    (((content.data.dropWhile Char.isWhitespace).reverse.dropWhile
        Char.isWhitespace).reverse)

/-- Embedding of `handleSendMessage`: guard `if (!content.trim()) return;` (the trimmed
string is falsy exactly when it is empty), then append the pending user
message, set typing, and issue the stream request.  Returns the next state
and the request handed to `streamService.streamChatResponse`, if one is
issued. -/
def handleSendMessage (now : Nat) (content : String) (s : ChatState) :
    ChatState × Option ChatMessageRequest :=
  if jsTrim content = "" then
    (s, none)
  else
    ({ s with
        messages := s.messages ++
          [{ id := toString now, content := content, role := Role.user, timestamp := now }]
        isTyping := true },
     some { message := content, chat_id := s.activeSessionId })

/-- The `setChatSessions` updater used by `handleRenameChat` (both for the
optimistic update and for the rollback): set the title of every session
whose id matches. -/
def setTitleIn (sessions : List ChatSession) (chatId : String) (title : String) :
    List ChatSession :=
  sessions.map fun session =>
    if session.id = chatId then { session with title := title } else session

/-- Embedding of `handleRenameChat`: no-op when no chat is being renamed; otherwise apply
the optimistic title update, then — if the external
`chatService.renameChat` call fails — roll the title back to the
snapshot's original title.  The external call's outcome is the boolean
`renameSucceeds`. -/
def handleRenameChat (chatToRename : Option ChatSession) (newTitle : String)
    (sessions : List ChatSession) (renameSucceeds : Bool) : List ChatSession :=
  match chatToRename with
  | none => sessions
  | some c =>
      let optimistic := setTitleIn sessions c.id newTitle
      if renameSucceeds then optimistic
      else setTitleIn optimistic c.id c.title

/-- Folding a run of `text_delta` chunks (and nothing else) through the
chunk handler, in order. -/
def applyDeltas (now : Nat) (captured : Option String) (ds : List String)
    (s : ChatState) : ChatState :=
  ds.foldl (fun st d => (handleStreamChunk now captured (StreamChunk.textDelta d) st).1) s

/-- Concatenation of a list of delta strings in order. -/
def concatAll (ds : List String) : String :=
  ds.foldr (fun a b => a ++ b) ""

/-- Whether the last message of the list exists and has role assistant —
the sole signal the `text_delta` branch uses to decide append-vs-extend. -/
def lastIsAssistant (ms : List Message) : Bool :=
  match ms.getLast? with
  | some m => m.role = Role.assistant
  | none => false

theorem concatAll_cons (d : String) (ds : List String) :
    concatAll (d :: ds) = d ++ concatAll ds := rfl

theorem applyDelta_concat_assistant (now : Nat) (d : String) (init : List Message)
    (m : Message) (hm : m.role = Role.assistant) :
    applyDelta now d (init ++ [m]) =
      init ++ [{ m with content := m.content ++ d }] := by
  simp [applyDelta, List.getLast?_concat, List.dropLast_concat, hm]

theorem applyDeltas_extend (now : Nat) (captured : Option String) (ds : List String)
    (init : List Message) (m : Message) (hm : m.role = Role.assistant)
    (sessions : List ChatSession) (act : Option String) (ty : Bool) :
    applyDeltas now captured ds ⟨init ++ [m], sessions, act, ty⟩ =
      ⟨init ++ [{ m with content := m.content ++ concatAll ds }], sessions, act,
        if ds.isEmpty then ty else true⟩ := by
  induction ds generalizing m ty with
  | nil => simp [applyDeltas, concatAll]
  | cons d rest ih =>
      have hstep :
          (handleStreamChunk now captured (StreamChunk.textDelta d)
            ⟨init ++ [m], sessions, act, ty⟩).1 =
          ⟨init ++ [{ m with content := m.content ++ d }], sessions, act, true⟩ := by
        simp [handleStreamChunk, applyDelta_concat_assistant now d init m hm]
      have hfold :
          applyDeltas now captured (d :: rest) ⟨init ++ [m], sessions, act, ty⟩ =
          applyDeltas now captured rest
            ⟨init ++ [{ m with content := m.content ++ d }], sessions, act, true⟩ := by
        simp [applyDeltas, List.foldl_cons, hstep]
      rw [hfold, ih { m with content := m.content ++ d } hm true]
      simp [concatAll_cons, String.append_assoc]

theorem applyDelta_append_fresh (now : Nat) (d : String) (ms : List Message)
    (h : lastIsAssistant ms = false) :
    applyDelta now d ms = ms ++ [newAssistantMessage now d] := by
  unfold applyDelta
  unfold lastIsAssistant at h
  cases hl : ms.getLast? with
  | none => simp
  | some m =>
      rw [hl] at h
      simp only [decide_eq_false_iff_not] at h
      simp [h]

theorem setTitleIn_setTitleIn (l : List ChatSession) (cid t1 t2 : String) :
    setTitleIn (setTitleIn l cid t1) cid t2 = setTitleIn l cid t2 := by
  induction l with
  | nil => rfl
  | cons x xs ih =>
      by_cases hx : x.id = cid <;> simp [setTitleIn, List.map_cons, hx] at ih ⊢ <;> exact ih

theorem setTitleIn_self (l : List ChatSession) (cid t : String)
    (h : ∀ x ∈ l, x.id = cid → x.title = t) :
    setTitleIn l cid t = l := by
  induction l with
  | nil => rfl
  | cons x xs ih =>
      have hxs : setTitleIn xs cid t = xs :=
        ih fun y hy => h y (List.mem_cons_of_mem x hy)
      simp only [setTitleIn, List.map_cons] at hxs ⊢
      by_cases hx : x.id = cid
      · have hxt : x.title = t := h x (List.mem_cons_self x xs) hx
        rw [if_pos hx, hxs, ← hxt]
      · rw [if_neg hx, hxs]

theorem touchSessions_touchSessions (now : Nat) (cid : String) (l : List ChatSession) :
    touchSessions now cid (touchSessions now cid l) = touchSessions now cid l := by
  induction l with
  | nil => rfl
  | cons x xs ih =>
      by_cases hx : x.id = cid <;>
        simp [touchSessions, List.map_cons, hx] at ih ⊢ <;> exact ih

/-- C1: a run of `text_delta` chunks `d :: ds` applied in order by the chunk
handler, with no other chunk in between, starting from a state whose last
message is not an assistant message, appends exactly one assistant message
whose content is the concatenation of all the deltas, and sets typing to
true; nothing else in the state changes. -/
theorem text_delta_run_coalesces (now : Nat) (captured : Option String)
    (s : ChatState) (d : String) (ds : List String)
    (h : lastIsAssistant s.messages = false) :
    applyDeltas now captured (d :: ds) s =
      { s with
          messages := s.messages ++
            [{ id := "assistant-" ++ toString now
               content := d ++ concatAll ds
               role := Role.assistant
               timestamp := now }]
          isTyping := true } := by
  have hstep : (handleStreamChunk now captured (StreamChunk.textDelta d) s).1 =
      ⟨s.messages ++ [newAssistantMessage now d], s.chatSessions,
        s.activeSessionId, true⟩ := by
    simp [handleStreamChunk, applyDelta_append_fresh now d s.messages h]
  have hfold : applyDeltas now captured (d :: ds) s =
      applyDeltas now captured ds
        ⟨s.messages ++ [newAssistantMessage now d], s.chatSessions,
          s.activeSessionId, true⟩ := by
    simp [applyDeltas, List.foldl_cons, hstep]
  rw [hfold,
    applyDeltas_extend now captured ds s.messages (newAssistantMessage now d) rfl
      s.chatSessions s.activeSessionId true]
  simp [newAssistantMessage]

/-- Witness for C1: two deltas after a user message coalesce into one
assistant message reading their concatenation. -/
theorem text_delta_run_coalesces_witness :
    lastIsAssistant
        ([{ id := "u", content := "hi", role := Role.user, timestamp := 0 }] :
          List Message) = false ∧
    applyDeltas 0 none ["Hel", "lo"]
        ⟨[{ id := "u", content := "hi", role := Role.user, timestamp := 0 }],
          [], none, false⟩ =
      { messages :=
          [{ id := "u", content := "hi", role := Role.user, timestamp := 0 },
           { id := "assistant-" ++ toString 0, content := "Hel" ++ concatAll ["lo"],
             role := Role.assistant, timestamp := 0 }]
        chatSessions := []
        activeSessionId := none
        isTyping := true } :=
  ⟨rfl,
    text_delta_run_coalesces 0 none
      ⟨[{ id := "u", content := "hi", role := Role.user, timestamp := 0 }],
        [], none, false⟩ "Hel" ["lo"] rfl⟩

/-- C2: the code lacks the staleness guard the claim describes.  A stream
started for a new chat captures `activeSessionId = null`; if the user then
selects the existing session "7", the late `chat_info` for chat 42 is not
dropped — the handler still sees the captured null id, overwrites the
active session id with "42" and prepends a synthesized session, altering
the state the user is looking at. -/
theorem late_chat_info_clobbers_active_session :
    (handleStreamChunk 5 none (StreamChunk.chatInfo 42 (some "T"))
        ⟨[], [{ id := "7", title := "Existing", createdAt := 0,
                lastMessageTime := none, messageCount := none, isArchived := none }],
          some "7", false⟩).1 =
      ⟨[], [newSessionOfChunk 5 42 (some "T"),
            { id := "7", title := "Existing", createdAt := 0,
              lastMessageTime := none, messageCount := none, isArchived := none }],
        some "42", false⟩ ∧
    (some "42" : Option String) ≠ some "7" := by
  refine ⟨?_, by decide⟩
  simp [handleStreamChunk]
  rfl

/-- C3 counterexample: the fallback is JavaScript `||`, so a `chat_info`
chunk whose title is present but empty also yields `"New Chat"`, where the
claim ("falling back when absent") predicts the payload title `""`. -/
theorem chat_info_empty_title_counterexample :
    (handleStreamChunk 5 none (StreamChunk.chatInfo 42 (some ""))
        ⟨[], [], none, false⟩).1.chatSessions.map ChatSession.title = ["New Chat"] ∧
    "New Chat" ≠ "" := by
  refine ⟨?_, by decide⟩
  rfl

/-- C3 (amended): with the active session id unset (and a matching captured
id), one `chat_info` chunk sets the active session id to the chunk's
chat_id exactly once and prepends exactly one synthesized session with
title from the payload — falling back to "New Chat" when the title is
absent or empty — and messageCount 1; messages and typing are untouched. -/
theorem chat_info_new_session_bootstrap (now chat_id : Nat) (title : Option String)
    (s : ChatState) (h : s.activeSessionId = none) :
    handleStreamChunk now s.activeSessionId (StreamChunk.chatInfo chat_id title) s =
      ({ s with
          activeSessionId := some (toString chat_id)
          chatSessions :=
            { id := toString chat_id
              title := titleOrDefault title
              createdAt := now
              lastMessageTime := some now
              messageCount := some 1
              isArchived := none } :: s.chatSessions }, none) := by
  simp [handleStreamChunk, h, newSessionOfChunk]

/-- Witness for C3's amended theorem: the spec's bootstrap scenario. -/
theorem chat_info_new_session_bootstrap_witness :
    (⟨[], [], none, false⟩ : ChatState).activeSessionId = none ∧
    handleStreamChunk 5 (⟨[], [], none, false⟩ : ChatState).activeSessionId
        (StreamChunk.chatInfo 42 (some "Radiation Safety"))
        ⟨[], [], none, false⟩ =
      (⟨[], [{ id := toString 42
               title := titleOrDefault (some "Radiation Safety")
               createdAt := 5
               lastMessageTime := some 5
               messageCount := some 1
               isArchived := none }],
          some (toString 42), false⟩, none) :=
  ⟨rfl, chat_info_new_session_bootstrap 5 42 (some "Radiation Safety")
    ⟨[], [], none, false⟩ rfl⟩

/-- C4: when the active session id is already set (and the handler's
captured id agrees with it), a `chat_info` chunk is consumed as a complete
no-op: the id, the messages, the session list and the typing flag are all
left exactly as they were, and nothing is surfaced. -/
theorem chat_info_existing_session_noop (now chat_id : Nat) (title : Option String)
    (s : ChatState) (a : String) (h : s.activeSessionId = some a) :
    handleStreamChunk now s.activeSessionId (StreamChunk.chatInfo chat_id title) s =
      (s, none) := by
  simp [handleStreamChunk, h]

/-- Witness for C4: a `chat_info` for chat 42 arriving while session "7" is
active changes nothing. -/
theorem chat_info_existing_session_noop_witness :
    (⟨[], [], some "7", true⟩ : ChatState).activeSessionId = some "7" ∧
    handleStreamChunk 9 (⟨[], [], some "7", true⟩ : ChatState).activeSessionId
        (StreamChunk.chatInfo 42 (some "T")) ⟨[], [], some "7", true⟩ =
      (⟨[], [], some "7", true⟩, none) :=
  ⟨rfl, chat_info_existing_session_noop 9 42 (some "T")
    ⟨[], [], some "7", true⟩ "7" rfl⟩

/-- C5 counterexample: the `lastMessageTime` touch is gated on the handler's
captured `activeSessionId` being non-null.  With the captured id null and a
session matching the chunk's chat_id present (old timestamp 0, current time
5), `status: complete` sets typing to false but leaves the matching
session's `lastMessageTime` at 0 instead of refreshing it. -/
theorem status_complete_no_touch_counterexample :
    (handleStreamChunk 5 none (StreamChunk.status "complete" 42)
        ⟨[], [{ id := "42", title := "T", createdAt := 0,
                lastMessageTime := some 0, messageCount := none, isArchived := none }],
          none, true⟩).1 =
      ⟨[], [{ id := "42", title := "T", createdAt := 0,
              lastMessageTime := some 0, messageCount := none, isArchived := none }],
        none, false⟩ ∧
    (some 0 : Option Nat) ≠ some 5 := by
  refine ⟨?_, by decide⟩
  rfl

/-- C5 (amended): when the handler's captured active session id is set,
`status: complete` sets typing to false and refreshes `lastMessageTime` on
every session whose id matches the chunk's chat_id, leaving messages and
the active id untouched; applying the same complete chunk a second time
leaves the state unchanged; a status chunk with any other value is a
complete no-op.  (When the captured id is null, typing is still cleared
but no session timestamp is touched.) -/
theorem status_complete_behavior (now chat_id : Nat) (s : ChatState) (a : String)
    (h : s.activeSessionId = some a) (st : String) (hst : st ≠ "complete") :
    (handleStreamChunk now s.activeSessionId (StreamChunk.status "complete" chat_id) s).1 =
      { s with
          isTyping := false
          chatSessions := touchSessions now (toString chat_id) s.chatSessions } ∧
    (handleStreamChunk now
        ((handleStreamChunk now s.activeSessionId
            (StreamChunk.status "complete" chat_id) s).1).activeSessionId
        (StreamChunk.status "complete" chat_id)
        (handleStreamChunk now s.activeSessionId
          (StreamChunk.status "complete" chat_id) s).1).1 =
      (handleStreamChunk now s.activeSessionId
        (StreamChunk.status "complete" chat_id) s).1 ∧
    handleStreamChunk now s.activeSessionId (StreamChunk.status st chat_id) s =
      (s, none) := by
  refine ⟨?_, ?_, ?_⟩
  · simp [handleStreamChunk, h]
  · simp [handleStreamChunk, h, touchSessions_touchSessions]
  · simp [handleStreamChunk, hst]

/-- Witness for C5's amended theorem: active session "42", a matching
session with a stale timestamp, time 5, other status value "pending". -/
theorem status_complete_behavior_witness :
    (⟨[], [{ id := "42", title := "T", createdAt := 0,
             lastMessageTime := some 0, messageCount := none, isArchived := none }],
        some "42", true⟩ : ChatState).activeSessionId = some "42" ∧
    ("pending" : String) ≠ "complete" ∧
    ((handleStreamChunk 5
        (⟨[], [{ id := "42", title := "T", createdAt := 0,
                 lastMessageTime := some 0, messageCount := none, isArchived := none }],
            some "42", true⟩ : ChatState).activeSessionId
        (StreamChunk.status "complete" 42)
        ⟨[], [{ id := "42", title := "T", createdAt := 0,
                lastMessageTime := some 0, messageCount := none, isArchived := none }],
          some "42", true⟩).1 =
      { messages := ([] : List Message)
        chatSessions :=
          touchSessions 5 (toString 42)
            [{ id := "42", title := "T", createdAt := 0,
               lastMessageTime := some 0, messageCount := none, isArchived := none }]
        activeSessionId := some "42"
        isTyping := false } ∧
    (handleStreamChunk 5
        ((handleStreamChunk 5
            (⟨[], [{ id := "42", title := "T", createdAt := 0,
                     lastMessageTime := some 0, messageCount := none, isArchived := none }],
                some "42", true⟩ : ChatState).activeSessionId
            (StreamChunk.status "complete" 42)
            ⟨[], [{ id := "42", title := "T", createdAt := 0,
                    lastMessageTime := some 0, messageCount := none, isArchived := none }],
              some "42", true⟩).1).activeSessionId
        (StreamChunk.status "complete" 42)
        (handleStreamChunk 5
          (⟨[], [{ id := "42", title := "T", createdAt := 0,
                   lastMessageTime := some 0, messageCount := none, isArchived := none }],
              some "42", true⟩ : ChatState).activeSessionId
          (StreamChunk.status "complete" 42)
          ⟨[], [{ id := "42", title := "T", createdAt := 0,
                  lastMessageTime := some 0, messageCount := none, isArchived := none }],
            some "42", true⟩).1).1 =
      (handleStreamChunk 5
        (⟨[], [{ id := "42", title := "T", createdAt := 0,
                 lastMessageTime := some 0, messageCount := none, isArchived := none }],
            some "42", true⟩ : ChatState).activeSessionId
        (StreamChunk.status "complete" 42)
        ⟨[], [{ id := "42", title := "T", createdAt := 0,
                lastMessageTime := some 0, messageCount := none, isArchived := none }],
          some "42", true⟩).1 ∧
    handleStreamChunk 5
        (⟨[], [{ id := "42", title := "T", createdAt := 0,
                 lastMessageTime := some 0, messageCount := none, isArchived := none }],
            some "42", true⟩ : ChatState).activeSessionId
        (StreamChunk.status "pending" 42)
        ⟨[], [{ id := "42", title := "T", createdAt := 0,
                lastMessageTime := some 0, messageCount := none, isArchived := none }],
          some "42", true⟩ =
      (⟨[], [{ id := "42", title := "T", createdAt := 0,
               lastMessageTime := some 0, messageCount := none, isArchived := none }],
          some "42", true⟩, none)) :=
  ⟨rfl, by decide,
    status_complete_behavior 5 42
      ⟨[], [{ id := "42", title := "T", createdAt := 0,
              lastMessageTime := some 0, messageCount := none, isArchived := none }],
        some "42", true⟩ "42" rfl "pending" (by decide)⟩

/-- C6: an `error` chunk sets typing to false, surfaces the chunk's message
to the failure channel, and leaves the message list — as well as the
session list and the active session id — entirely unchanged. -/
theorem error_chunk_preserves_messages (now : Nat) (captured : Option String)
    (msg : String) (s : ChatState) :
    handleStreamChunk now captured (StreamChunk.error msg) s =
      ({ s with isTyping := false }, some msg) := rfl

/-- C7: one application of the chunk handler changes the message list only
by leaving it unchanged, appending one message at the end, or replacing
the content of the tail element; messages at earlier indices are never
rewritten. -/
theorem chunk_handler_frame_property (now : Nat) (captured : Option String)
    (chunk : StreamChunk) (s : ChatState) :
    (handleStreamChunk now captured chunk s).1.messages = s.messages ∨
    (∃ m, (handleStreamChunk now captured chunk s).1.messages = s.messages ++ [m]) ∨
    (∃ ms m c, s.messages = ms ++ [m] ∧
      (handleStreamChunk now captured chunk s).1.messages =
        ms ++ [{ m with content := c }]) := by
  cases chunk with
  | chatInfo chat_id title =>
      left
      cases captured <;> simp [handleStreamChunk]
  | textDelta d =>
      cases hl : s.messages.getLast? with
      | none =>
          right; left
          exact ⟨newAssistantMessage now d, by simp [handleStreamChunk, applyDelta, hl]⟩
      | some m =>
          by_cases hm : m.role = Role.assistant
          · right; right
            refine ⟨s.messages.dropLast, m, m.content ++ d, ?_, ?_⟩
            · exact (List.dropLast_append_getLast? m hl).symm
            · simp [handleStreamChunk, applyDelta, hl, hm]
          · right; left
            exact ⟨newAssistantMessage now d, by simp [handleStreamChunk, applyDelta, hl, hm]⟩
  | status st chat_id =>
      left
      by_cases hst : st = "complete" <;> cases captured <;>
        simp [handleStreamChunk, hst]
  | error msg => left; rfl
  | other tag => left; rfl

/-- C8: a chunk whose type discriminant is none of the four known ones
falls through the handler's if/else-if chain: the handler is total (never
throws) and leaves messages, sessions, active session id and typing all
unchanged, surfacing nothing. -/
theorem unknown_chunk_noop (now : Nat) (captured : Option String) (tag : String)
    (s : ChatState) :
    handleStreamChunk now captured (StreamChunk.other tag) s = (s, none) := rfl

/-- C9: renaming is optimistic and rollback-capable.  Provided the rename
snapshot agrees with the list (every listed session with the target id
carries the snapshot's original title), a failed external call leaves the
session list exactly as it was before the rename, and for either outcome
the result only retitles sessions with the target id — sessions with any
other id are mapped to themselves. -/
theorem rename_optimistic_rollback (c : ChatSession) (newTitle : String)
    (sessions : List ChatSession) (b : Bool)
    (h : ∀ x ∈ sessions, x.id = c.id → x.title = c.title) :
    handleRenameChat (some c) newTitle sessions false = sessions ∧
    handleRenameChat (some c) newTitle sessions b =
      sessions.map fun x =>
        if x.id = c.id then { x with title := if b then newTitle else c.title }
        else x := by
  have hfail : handleRenameChat (some c) newTitle sessions false =
      setTitleIn sessions c.id c.title := by
    show setTitleIn (setTitleIn sessions c.id newTitle) c.id c.title = _
    rw [setTitleIn_setTitleIn]
  refine ⟨?_, ?_⟩
  · rw [hfail, setTitleIn_self sessions c.id c.title h]
  · cases b with
    | true => simp [handleRenameChat, setTitleIn]
    | false => rw [hfail]; simp [setTitleIn]

/-- Witness for C9: renaming session "1" (original title "Old") to "New"
among two sessions; the failing branch restores the original list. -/
theorem rename_optimistic_rollback_witness :
    (∀ x ∈ [({ id := "1", title := "Old", createdAt := 0, lastMessageTime := none,
               messageCount := none, isArchived := none } : ChatSession),
            { id := "2", title := "Other", createdAt := 0, lastMessageTime := none,
              messageCount := none, isArchived := none }],
        x.id = ({ id := "1", title := "Old", createdAt := 0, lastMessageTime := none,
                  messageCount := none, isArchived := none } : ChatSession).id →
        x.title = ({ id := "1", title := "Old", createdAt := 0, lastMessageTime := none,
                     messageCount := none, isArchived := none } : ChatSession).title) ∧
    (handleRenameChat
        (some { id := "1", title := "Old", createdAt := 0, lastMessageTime := none,
                messageCount := none, isArchived := none }) "New"
        [{ id := "1", title := "Old", createdAt := 0, lastMessageTime := none,
           messageCount := none, isArchived := none },
         { id := "2", title := "Other", createdAt := 0, lastMessageTime := none,
           messageCount := none, isArchived := none }] false =
      [{ id := "1", title := "Old", createdAt := 0, lastMessageTime := none,
         messageCount := none, isArchived := none },
       { id := "2", title := "Other", createdAt := 0, lastMessageTime := none,
         messageCount := none, isArchived := none }] ∧
    handleRenameChat
        (some { id := "1", title := "Old", createdAt := 0, lastMessageTime := none,
                messageCount := none, isArchived := none }) "New"
        [{ id := "1", title := "Old", createdAt := 0, lastMessageTime := none,
           messageCount := none, isArchived := none },
         { id := "2", title := "Other", createdAt := 0, lastMessageTime := none,
           messageCount := none, isArchived := none }] true =
      List.map
        (fun x =>
          if x.id = ({ id := "1", title := "Old", createdAt := 0, lastMessageTime := none,
                       messageCount := none, isArchived := none } : ChatSession).id then
            { x with
                title :=
                  if true then "New"
                  else ({ id := "1", title := "Old", createdAt := 0, lastMessageTime := none,
                          messageCount := none, isArchived := none } : ChatSession).title }
          else x)
        [{ id := "1", title := "Old", createdAt := 0, lastMessageTime := none,
           messageCount := none, isArchived := none },
         { id := "2", title := "Other", createdAt := 0, lastMessageTime := none,
           messageCount := none, isArchived := none }]) :=
  ⟨by decide,
    rename_optimistic_rollback
      { id := "1", title := "Old", createdAt := 0, lastMessageTime := none,
        messageCount := none, isArchived := none } "New"
      [{ id := "1", title := "Old", createdAt := 0, lastMessageTime := none,
         messageCount := none, isArchived := none },
       { id := "2", title := "Other", createdAt := 0, lastMessageTime := none,
         messageCount := none, isArchived := none }] true (by decide)⟩

/-- C10: a content string that is empty or all whitespace fails the
`content.trim()` guard, so the send operation is a complete no-op: no user
message is appended, typing is untouched, and no stream request is
issued. -/
theorem blank_send_noop (now : Nat) (content : String) (s : ChatState)
    (h : jsTrim content = "") :
    handleSendMessage now content s = (s, none) := by
  simp [handleSendMessage, h]

/-- Witness for C10: sending three spaces changes nothing and issues no
request. -/
theorem blank_send_noop_witness :
    jsTrim "   " = "" ∧
    handleSendMessage 7 "   " ⟨[], [], some "3", false⟩ =
      (⟨[], [], some "3", false⟩, none) :=
  ⟨rfl, blank_send_noop 7 "   " ⟨[], [], some "3", false⟩ rfl⟩
